import Mathlib

/-!
Verification of the CrudeIntel 2.0 news-alert pipeline.

Shallow embedding of the Python sources (`news_fetcher.py`, `auto_alerts.py`,
`telegram_alerts.py`, `summarizer.py`, `database.py`).  External collaborators
(the MD5 library, ISO-8601 timestamp parsing, the Gemini model, the Telegram
transport, the Firestore HTTP transport) are modelled as explicit function
parameters or oracles; everything else is translated directly from the code.
Timestamps are modelled as `Int` seconds (UTC); `datetime.fromisoformat` is an
external library call, modelled as a `String → Option Int` parameter (`none`
models a raised `ValueError`).
-/

namespace CrudeIntel

/-- Python's `needle in hay` substring test on strings. -/
def strContains (hay needle : String) : Bool :=
  decide (needle.toList <:+: hay.toList)

/-- Python truthiness of an optional string (`None` and `""` are falsy),
as used by `if not token or not chat_id`. -/
def pyFalsy : Option String → Bool
  | none => true
  | some s => s.isEmpty

/-- Python `str.lower()`, modelled character-wise (identical to CPython for
the ASCII strings this code base uses). -/
def pyLower (s : String) : String := String.mk (s.toList.map Char.toLower)

/-- Python `str.startswith(pat)`. -/
def pyStartsWith (s pat : String) : Bool := pat.toList.isPrefixOf s.toList

/-- Python `str.strip()`: drop whitespace from both ends. -/
def pyTrim (s : String) : String :=
  String.mk (((s.toList.dropWhile Char.isWhitespace).reverse.dropWhile
    Char.isWhitespace).reverse)

/-- Structural (fuel-indexed) recursion behind `pyReplace`; `fuel` bounds the
number of characters still to be consumed, so the recursion is structural and
kernel-reducible. -/
def replaceFuel (pat rep : List Char) : Nat → List Char → List Char
  | _, [] => []
  | 0, l => l
  | fuel + 1, c :: rest =>
    if pat ≠ [] ∧ pat.isPrefixOf (c :: rest) then
      rep ++ replaceFuel pat rep fuel (rest.drop (pat.length - 1))
    else c :: replaceFuel pat rep fuel rest

/-- Python `str.replace(pat, rep)`: replace all non-overlapping occurrences
left to right (every pattern this code base passes is non-empty). -/
def pyReplace (s pat rep : String) : String :=
  String.mk (replaceFuel pat.toList rep.toList s.toList.length s.toList)

/-- Split a character list at every occurrence of `sep`, keeping empty
segments, matching Python `str.split` with a one-character separator. -/
def splitOnChar (sep : Char) : List Char → List (List Char)
  | [] => [[]]
  | c :: rest =>
    if c = sep then [] :: splitOnChar sep rest
    else
      match splitOnChar sep rest with
      | [] => [[c]]
      | h :: t => (c :: h) :: t

/-- Python `text.split('\n')`. -/
def pySplitLines (s : String) : List String :=
  (splitOnChar (Char.ofNat 10) s.toList).map String.mk

/-! ## news_fetcher.py -/

/-- `CRUDE_KEYWORDS` from `news_fetcher.py`. -/
def CRUDE_KEYWORDS : List String :=
  ["crude oil", "crude", "oil", "brent", "wti", "opec", "opec+",
   "oil price", "oil futures", "oil market", "petroleum", "barrel",
   "oil production", "oil supply", "oil inventories", "shale oil",
   "oil drilling", "oil refinery", "oil rig", "oil pipeline"]

/-- `is_crude_related` from `news_fetcher.py`:
`any(keyword in text.lower() for keyword in CRUDE_KEYWORDS)`. -/
def is_crude_related (text : String) : Bool :=
  CRUDE_KEYWORDS.any (fun keyword => strContains (pyLower text) keyword)

/-! ## The Item data model (a news article dict as used by the pipeline) -/

/-- One news item as passed between `auto_alerts.py` and `telegram_alerts.py`.
`published_at` is kept as the raw string of the dict; parsing it is the
external `datetime.fromisoformat` call. -/
structure Article where
  title : String
  description : String
  link : String
  source : String
  published_at : String
  summary : String
  sentiment : String
deriving Repr, DecidableEq

/-! ## telegram_alerts.py -/

/-- `get_article_id` from `telegram_alerts.py`:
`hashlib.md5((title + link).encode()).hexdigest()`.  The MD5 library is the
external parameter `md5hex`. -/
def get_article_id (md5hex : String → String) (title link : String) : String :=
  md5hex (title ++ link)

/-- The shared pattern `datetime.fromisoformat(published_at.replace('Z', '+00:00'))`
guarded by `if not published_at: continue`; `parse` is the external
`datetime.fromisoformat`, returning `none` when it raises. -/
def parsePublished (parse : String → Option Int) (published_at : String) : Option Int :=
  if published_at = "" then none
  else parse (pyReplace published_at "Z" "+00:00")

/-! ## auto_alerts.py -/

/-- The per-article keep decision of `filter_last_hour_articles`
(`auto_alerts.py`, and identically `app.py`): keep iff `published_at` is
non-empty, parses, and `published_dt > cutoff` where
`cutoff = now - timedelta(hours=1)`.  A parse failure is caught by the
`except` and the article is simply not appended. -/
def keepRecent (parse : String → Option Int) (now : Int) (a : Article) : Bool :=
  match parsePublished parse a.published_at with
  | none => false
  | some published_dt => decide (now - 3600 < published_dt)

/-- `filter_last_hour_articles` from `auto_alerts.py`. -/
def filter_last_hour_articles (parse : String → Option Int) (now : Int)
    (articles : List Article) : List Article :=
  articles.filter (keepRecent parse now)

/-- Python's run-scoped dedup key `article.get('title','') + article.get('link','')`
from `auto_alerts.py` `main`. -/
def dedupKey (a : Article) : String := a.title ++ a.link

/-- The dedup loop of `auto_alerts.py` `main`:
`unique = {}; for article in recent: key = title+link; if key not in unique:
unique[key] = article`.  Python dicts preserve insertion order, so the dict is
modelled as an association list extended at the tail. -/
def dedupLoop : List Article → List (String × Article) → List (String × Article)
  | [], unique => unique
  | a :: rest, unique =>
    if (unique.map Prod.fst).contains (dedupKey a) then dedupLoop rest unique
    else dedupLoop rest (unique ++ [(dedupKey a, a)])

/-- `unique_articles = list(unique.values())` from `auto_alerts.py` `main`. -/
def uniqueArticles (articles : List Article) : List Article :=
  (dedupLoop articles []).map Prod.snd

/-! ## telegram_alerts.py: multi-bot sending -/

/-- One entry of `TELEGRAM_BOTS`; `token`/`chat_id` come from `os.getenv`,
which yields `None` when the variable is unset. -/
structure BotConfig where
  token : Option String
  chat_id : Option String
deriving Repr, DecidableEq

/-- The bot loop of `send_enhanced_telegram_alert_multi`: a bot with falsy
credentials is skipped, otherwise `bot.send_message` is attempted; `ok i`
models whether the external Telegram call for the `i`-th bot returns without
raising.  Counts `successful_sends` starting from bot index `i`. -/
def countSends (ok : Nat → Bool) : Nat → List BotConfig → Nat
  | _, [] => 0
  | i, b :: rest =>
    (if !pyFalsy b.token && !pyFalsy b.chat_id && ok i then 1 else 0) +
      countSends ok (i + 1) rest

/-- `send_enhanced_telegram_alert_multi` from `telegram_alerts.py`, returning
`successful_sends`.  Message formatting is transmitted to the external
Telegram transport and does not affect the returned count. -/
def send_enhanced_telegram_alert_multi (bots : List BotConfig) (ok : Nat → Bool) : Nat :=
  countSends ok 0 bots

/-- The running state of the `send_automatic_alerts` loop:
`total_alerts_sent`, the `alerted_articles_cache` set (modelled as a list of
ids in insertion order; only membership and insertion are used), and the
trace `invoked` of articles for which `send_enhanced_telegram_alert_multi`
was called. -/
structure AlertState where
  sent : Nat
  cache : List String
  invoked : List Article
deriving Repr, DecidableEq

/-- One iteration of the `for i, article in enumerate(articles)` loop of
`send_automatic_alerts`: skip when `published_at` is empty or unparsable,
when `published_dt <= cutoff_time` (`cutoff_time = now - timedelta(hours=1)`),
when `sentiment.lower()` is not bullish/bearish, or when the article id is
already in `alerted_articles_cache`; otherwise send to all bots and, only if
`successful_sends > 0`, add the id to the cache and bump the counter. -/
def alertStep (md5hex : String → String) (parse : String → Option Int)
    (bots : List BotConfig) (ok : Article → Nat → Bool) (now : Int)
    (st : AlertState) (a : Article) : AlertState :=
  match parsePublished parse a.published_at with
  | none => st
  | some published_dt =>
    if published_dt ≤ now - 3600 then st
    else if !(["bullish", "bearish"].contains (pyLower a.sentiment)) then st
    else
      let article_id := get_article_id md5hex a.title a.link
      if st.cache.contains article_id then st
      else
        let successful_sends := send_enhanced_telegram_alert_multi bots (ok a)
        if successful_sends > 0 then
          { sent := st.sent + 1, cache := st.cache ++ [article_id],
            invoked := st.invoked ++ [a] }
        else
          { st with invoked := st.invoked ++ [a] }

/-- `send_automatic_alerts` from `telegram_alerts.py`, threading the
module-level `alerted_articles_cache` explicitly (`cache₀` its value on
entry); `now` is `datetime.now(timezone.utc)` captured once at the start. -/
def send_automatic_alerts (md5hex : String → String) (parse : String → Option Int)
    (bots : List BotConfig) (ok : Article → Nat → Bool) (now : Int)
    (articles : List Article) (cache₀ : List String) : AlertState :=
  articles.foldl (alertStep md5hex parse bots ok now) ⟨0, cache₀, []⟩

/-! ## summarizer.py -/

/-- `bullish_keywords` from `analyze_article_fallback`. -/
def bullish_keywords : List String :=
  ["rise", "rising", "up", "increase", "increasing", "boost", "surge", "rally",
   "gains", "higher", "growing", "positive", "strong", "bullish", "recovery",
   "demand", "growth", "expansion", "optimistic", "upward", "improved"]

/-- `bearish_keywords` from `analyze_article_fallback`. -/
def bearish_keywords : List String :=
  ["fall", "falling", "down", "decrease", "decreasing", "drop", "decline",
   "crash", "losses", "lower", "negative", "weak", "bearish", "recession",
   "oversupply", "glut", "concerns", "worries", "downward", "slump", "plunge"]

/-- `analyze_article_fallback` from `summarizer.py`: keyword counting over
`(title + " " + description).lower()`.  Its body is total on strings, so the
inner `except` branch (returning `("Analysis unavailable", "Neutral")`) is
unreachable in the model. -/
def analyze_article_fallback (title description : String) : String × String :=
  let text := pyLower (title ++ " " ++ description)
  let bullish_count := (bullish_keywords.filter (fun word => strContains text word)).length
  let bearish_count := (bearish_keywords.filter (fun word => strContains text word)).length
  let sentiment :=
    if bullish_count > bearish_count && bullish_count > 0 then "Bullish"
    else if bearish_count > bullish_count && bearish_count > 0 then "Bearish"
    else "Neutral"
  let summary :=
    if sentiment = "Bullish" then
      "Market indicators suggest positive outlook for crude oil. Key factors driving bullish sentiment identified."
    else if sentiment = "Bearish" then
      "Market analysis indicates potential downward pressure on crude oil. Bearish factors present in current conditions."
    else
      "Market sentiment remains neutral with mixed signals. No clear directional bias identified."
  (summary, sentiment)

/-- The response-parsing loop of `analyze_article_live`: fold over the lines
of the Gemini response, updating `(summary, sentiment)` on lines starting
with `Summary:` or `Sentiment:`. -/
def parseGeminiLine (acc : String × String) (line : String) : String × String :=
  let line := pyTrim line
  if pyStartsWith line "Summary:" then
    (pyTrim (pyReplace line "Summary:" ""), acc.2)
  else if pyStartsWith line "Sentiment:" then
    let sentiment_text := pyTrim (pyReplace line "Sentiment:" "")
    if strContains (pyLower sentiment_text) "bullish" then (acc.1, "Bullish")
    else if strContains (pyLower sentiment_text) "bearish" then (acc.1, "Bearish")
    else (acc.1, "Neutral")
  else acc

/-- `analyze_article_live` from `summarizer.py`.  `geminiAvailable` models the
module-level `GEMINI_AVAILABLE` flag; `gemini` models the external
`model.generate_content` call (`.ok text` is `response.text`, `.error` any
raised exception, e.g. a timeout, caught by the surrounding `except`, which
falls back to `analyze_article_fallback`). -/
def analyze_article_live (geminiAvailable : Bool) (gemini : Except Unit String)
    (title description : String) : String × String :=
  if !geminiAvailable then analyze_article_fallback title description
  else
    match gemini with
    | .error _ => analyze_article_fallback title description
    | .ok rtext =>
      let text := pyTrim rtext
      let lines := pySplitLines text
      let parsed := lines.foldl parseGeminiLine ("", "Neutral")
      let summary :=
        if parsed.1 = "" then "AI analysis completed - see full article for details."
        else parsed.1
      (summary, parsed.2)

/-! ## database.py

The Firestore `articles` collection is modelled as an association list from
document id to document, in the order the backend returns them for
`get_recent_articles`'s query.  `make_firestore_request` talks to the external
Firestore HTTP service; a `netOk` flag per call models whether the transport
succeeds (`requests.exceptions.RequestException` makes it return `{}`).  The
`firestore_value`/`parse_firestore_doc` serialization round-trip is exact for
the strings, booleans and nulls used here, so documents are modelled as
parsed records directly. -/

/-- One stored article document, with the fields written by `insert_article`. -/
structure StoredArticle where
  title : String
  description : String
  source : String
  link : String
  published_at : String
  summary : Option String
  sentiment : Option String
  alerted : Bool
  created_at : String
deriving Repr, DecidableEq

/-- The Firestore `articles` collection state. -/
abbrev Store : Type := List (String × StoredArticle)

/-- A Firestore `PATCH` on `articles/{docId}` (upsert: overwrites the document
if the id exists, creates it otherwise). -/
def setDoc (st : Store) (docId : String) (d : StoredArticle) : Store :=
  if st.any (fun p => p.1 == docId) then
    st.map (fun p => if p.1 == docId then (docId, d) else p)
  else st ++ [(docId, d)]

/-- `insert_article` from `database.py`: the document id is
`hashlib.md5(link.encode()).hexdigest()`; the document carries
`alerted = False`; returns `True` iff the `PATCH` response contains `name`
(which it does whenever the transport succeeds). -/
def insert_article (md5hex : String → String) (netOk : Bool) (st : Store)
    (title description source link published_at : String)
    (summary sentiment : Option String) (nowIso : String) : Store × Bool :=
  let doc_id := md5hex link
  let doc : StoredArticle :=
    { title := title, description := description, source := source, link := link,
      published_at := published_at, summary := summary, sentiment := sentiment,
      alerted := false, created_at := nowIso }
  if netOk then (setDoc st doc_id doc, true) else (st, false)

/-- `check_article_exists` from `database.py`: `GET` on
`articles/{md5(link)}`; `True` iff the response carries `name`, i.e. the
transport succeeds and the document exists (a missing document is an HTTP
404, raised by `raise_for_status` and turned into `{}`). -/
def check_article_exists (md5hex : String → String) (netOk : Bool) (st : Store)
    (link : String) : Bool :=
  let doc_id := md5hex link
  netOk && st.any (fun p => p.1 == doc_id)

/-- `get_recent_articles` from `database.py`: `GET` with `pageSize=limit`
over the collection in query order; `[]` on transport failure. -/
def get_recent_articles (netOk : Bool) (st : Store) (limit : Nat) : List StoredArticle :=
  if netOk then (st.map Prod.snd).take limit else []

/-- `get_unalerted_articles` from `database.py`: fetch up to 1000 recent
articles, keep those with `not article.get('alerted', False) and
article.get('sentiment') != 'Neutral'` (a document with no sentiment gives
`None`, which is `!= 'Neutral'`). -/
def get_unalerted_articles (netOk : Bool) (st : Store) : List StoredArticle :=
  (get_recent_articles netOk st 1000).filter
    (fun a => !a.alerted && a.sentiment != some "Neutral")

/-! ## Concrete test data (used by witnesses and counterexamples) -/

/-- A concrete stand-in for the external `datetime.fromisoformat` parameter,
used by witnesses: a plain decimal-digit string denotes Unix seconds, any
other string fails to parse. -/
def parseDigits (s : String) : Option Int :=
  if s.toList ≠ [] ∧ s.toList.all Char.isDigit then
    some (s.toList.foldl (fun n c => 10 * n + ((c.toNat : Int) - 48)) 0)
  else none

/-- A Bullish article published at Unix second 7000 (`String.toInt?` serves as
the concrete timestamp parser in witnesses, `fun s => s` as the concrete
MD5). -/
def artBull : Article :=
  { title := "OPEC announces surprise production cut", description := "oil",
    link := "https://x/1", source := "OilPrice", published_at := "7000",
    summary := "s", sentiment := "Bullish" }

/-- An article at exactly the one-hour boundary for `now = 3600`. -/
def artBoundary : Article :=
  { title := "boundary", description := "", link := "https://x/2", source := "S",
    published_at := "0", summary := "", sentiment := "Bullish" }

/-- An article whose `published_at` does not parse. -/
def artUnparsable : Article :=
  { title := "unparsable", description := "", link := "https://x/3", source := "S",
    published_at := "not-a-date", summary := "", sentiment := "Bullish" }

/-- An article far older than the window for `now = 7200`. -/
def artOld : Article :=
  { title := "old", description := "", link := "https://x/4", source := "S",
    published_at := "100", summary := "", sentiment := "Bullish" }

/-- A second article with the same title and link as `artBull` but another
source, for dedup tests. -/
def artBullDup : Article :=
  { artBull with source := "Rigzone", description := "dup" }

/-- A stored article with `sentiment = Neutral`. -/
def sartNeutral : StoredArticle :=
  { title := "n", description := "", source := "S", link := "https://x/5",
    published_at := "0", summary := some "s", sentiment := some "Neutral",
    alerted := false, created_at := "c" }

/-- A stored article that was never enriched (`sentiment` unset) and not
alerted. -/
def sartUnset : StoredArticle :=
  { title := "u", description := "", source := "S", link := "https://x/6",
    published_at := "0", summary := none, sentiment := none,
    alerted := false, created_at := "c" }

/-- A store holding 1000 Neutral documents followed by one alert-eligible
document, exceeding the 1000-document page of `get_recent_articles`. -/
def bigStore : Store :=
  List.replicate 1000 ("k", sartNeutral) ++ [("x", sartUnset)]

/-! ## Theorems -/

/-- C7: for every input text, the relevance filter returns `true` iff at
least one configured keyword occurs as a substring of the lower-cased text
(it is a pure function of its argument); in particular the mixed-case text
"Crude Oil prices spike" is classified relevant against the keyword
"crude oil". -/
theorem C7_relevance_substring_iff :
    (∀ text : String, is_crude_related text = true ↔
      ∃ keyword ∈ CRUDE_KEYWORDS, keyword.toList <:+: (pyLower text).toList) ∧
    is_crude_related "Crude Oil prices spike" = true ∧
    "crude oil" ∈ CRUDE_KEYWORDS := by
  refine ⟨?_, by decide, by decide⟩
  intro text
  simp [is_crude_related, strContains, List.any_eq_true]

/-! ### Run-scoped dedup lemmas (`auto_alerts.py` `main`) -/

theorem mem_dedupLoop_of_mem_acc {l : List Article} {acc : List (String × Article)}
    {p : String × Article} (h : p ∈ acc) : p ∈ dedupLoop l acc := by
  induction l generalizing acc with
  | nil => simpa [dedupLoop] using h
  | cons a rest ih =>
    simp only [dedupLoop]
    split
    · exact ih h
    · exact ih (List.mem_append_left _ h)

theorem dedupLoop_mem_spec {l : List Article} {acc : List (String × Article)}
    {k : String} {b : Article} (h : (k, b) ∈ dedupLoop l acc) :
    (k, b) ∈ acc ∨
      (k = dedupKey b ∧ k ∉ acc.map Prod.fst ∧
        ∃ pre post, l = pre ++ b :: post ∧ ∀ c ∈ pre, dedupKey c ≠ k) := by
  induction l generalizing acc with
  | nil => left; simpa [dedupLoop] using h
  | cons a rest ih =>
    simp only [dedupLoop] at h
    by_cases hk : (acc.map Prod.fst).contains (dedupKey a) = true
    · rw [if_pos hk] at h
      rcases ih h with hin | ⟨hkey, hnot, pre, post, hl, hpre⟩
      · exact Or.inl hin
      · right
        refine ⟨hkey, hnot, a :: pre, post, by rw [hl]; rfl, ?_⟩
        intro c hc
        rcases List.mem_cons.mp hc with rfl | hc
        · intro hEq
          exact hnot (hEq ▸ List.elem_iff.mp hk)
        · exact hpre c hc
    · rw [if_neg hk] at h
      rcases ih h with hin | ⟨hkey, hnot, pre, post, hl, hpre⟩
      · rcases List.mem_append.mp hin with hin | hin
        · exact Or.inl hin
        · simp only [List.mem_singleton, Prod.mk.injEq] at hin
          obtain ⟨rfl, rfl⟩ := hin
          right
          refine ⟨rfl, fun hmem => hk (List.elem_iff.mpr hmem), [], rest, rfl, by simp⟩
      · right
        rw [List.map_append] at hnot
        simp only [List.map_cons, List.map_nil, List.mem_append,
          List.mem_singleton, not_or] at hnot
        obtain ⟨hnot1, hnot2⟩ := hnot
        refine ⟨hkey, hnot1, a :: pre, post, by rw [hl]; rfl, ?_⟩
        intro c hc
        rcases List.mem_cons.mp hc with rfl | hc
        · exact fun hEq => hnot2 hEq.symm
        · exact hpre c hc

theorem dedupLoop_keys_nodup {l : List Article} {acc : List (String × Article)}
    (h : (acc.map Prod.fst).Nodup) : ((dedupLoop l acc).map Prod.fst).Nodup := by
  induction l generalizing acc with
  | nil => simpa [dedupLoop] using h
  | cons a rest ih =>
    simp only [dedupLoop]
    by_cases hk : (acc.map Prod.fst).contains (dedupKey a) = true
    · rw [if_pos hk]; exact ih h
    · rw [if_neg hk]
      apply ih
      rw [List.map_append]
      simp only [List.map_cons, List.map_nil]
      rw [List.nodup_append]
      refine ⟨h, List.nodup_singleton _, ?_⟩
      intro x hx hx'
      simp only [List.mem_singleton] at hx'
      subst hx'
      exact hk (List.elem_iff.mpr hx)

theorem dedupLoop_keys_complete {l : List Article} {acc : List (String × Article)}
    {a : Article} (h : a ∈ l) : dedupKey a ∈ (dedupLoop l acc).map Prod.fst := by
  induction l generalizing acc with
  | nil => cases h
  | cons b rest ih =>
    simp only [dedupLoop]
    rcases List.mem_cons.mp h with rfl | h
    · by_cases hk : (acc.map Prod.fst).contains (dedupKey a) = true
      · rw [if_pos hk]
        obtain ⟨p, hp, hfst⟩ := List.mem_map.mp (List.elem_iff.mp hk)
        exact hfst ▸ List.mem_map_of_mem Prod.fst (mem_dedupLoop_of_mem_acc hp)
      · rw [if_neg hk]
        exact List.mem_map_of_mem Prod.fst
          (mem_dedupLoop_of_mem_acc (List.mem_append_right _ (List.mem_singleton.mpr rfl)))
    · split <;> exact ih h

theorem uniqueArticles_key_eq {l : List Article} {k : String} {b : Article}
    (h : (k, b) ∈ dedupLoop l []) : k = dedupKey b := by
  rcases dedupLoop_mem_spec h with hin | ⟨hkey, _, _⟩
  · cases hin
  · exact hkey

/-- C4: the run-scoped identity is a deterministic hash of the exact
concatenation `title + link` (equal concatenations give equal ids); within
one pass, at most one article per dedup key survives (the surviving keys are
pairwise distinct), every survivor is the first article of the input carrying
its key, and every input article's key is represented by some survivor. -/
theorem C4_dedup_first_occurrence :
    (∀ (md5hex : String → String) (t₁ l₁ t₂ l₂ : String), t₁ ++ l₁ = t₂ ++ l₂ →
        get_article_id md5hex t₁ l₁ = get_article_id md5hex t₂ l₂) ∧
    (∀ articles : List Article, ((uniqueArticles articles).map dedupKey).Nodup) ∧
    (∀ (articles : List Article) (a : Article), a ∈ uniqueArticles articles →
        ∃ pre post, articles = pre ++ a :: post ∧
          ∀ b ∈ pre, dedupKey b ≠ dedupKey a) ∧
    (∀ (articles : List Article) (a : Article), a ∈ articles →
        ∃ b ∈ uniqueArticles articles, dedupKey b = dedupKey a) := by
  refine ⟨?_, ?_, ?_, ?_⟩
  · intro md5hex t₁ l₁ t₂ l₂ h
    simp only [get_article_id, h]
  · intro articles
    have hmap : (dedupLoop articles []).map Prod.fst =
        (uniqueArticles articles).map dedupKey := by
      unfold uniqueArticles
      rw [List.map_map]
      refine List.map_congr_left (fun p hp => ?_)
      obtain ⟨k, b⟩ := p
      exact uniqueArticles_key_eq hp
    rw [← hmap]
    exact dedupLoop_keys_nodup (by simp)
  · intro articles a ha
    obtain ⟨p, hp, hsnd⟩ := List.mem_map.mp ha
    obtain ⟨k, b⟩ := p
    cases hsnd
    rcases dedupLoop_mem_spec hp with hin | ⟨hkey, _, pre, post, hl, hpre⟩
    · cases hin
    · exact ⟨pre, post, hl, fun c hc => hkey ▸ hpre c hc⟩
  · intro articles a ha
    have hk := @dedupLoop_keys_complete articles [] a ha
    obtain ⟨p, hp, hfst⟩ := List.mem_map.mp hk
    exact ⟨p.2, List.mem_map_of_mem Prod.snd hp,
      by rw [← @uniqueArticles_key_eq articles p.1 p.2 (by simpa using hp), hfst]⟩

/-- Witness for C4 at concrete inputs: `"ab" ++ "c"` and `"a" ++ "bc"` get
the same id, and of two articles sharing title and link only the first
survives dedup, witnessed by the key of the survivor. -/
theorem C4_witness :
    get_article_id (fun s => s) "ab" "c" = get_article_id (fun s => s) "a" "bc" ∧
    (∃ b ∈ uniqueArticles [artBull, artBullDup], dedupKey b = dedupKey artBullDup) :=
  ⟨C4_dedup_first_occurrence.1 (fun s => s) "ab" "c" "a" "bc" (by decide),
   C4_dedup_first_occurrence.2.2.2 [artBull, artBullDup] artBullDup (by simp)⟩

/-- C5 fails as stated: at `now = 3600` an article published at second 0
satisfies `now - published_at = 3600 ≤ 3600` (the claimed boundary-inclusive
window), yet the code keeps an article only when `published_dt > cutoff`
strictly, so the boundary article is dropped. -/
theorem C5_counterexample :
    parsePublished parseDigits artBoundary.published_at = some 0 ∧
    (3600 : Int) - 0 ≤ 3600 ∧
    keepRecent parseDigits 3600 artBoundary = false ∧
    filter_last_hour_articles parseDigits 3600 [artBoundary] = [] :=
  ⟨by decide, by decide, by decide, by decide⟩

/-- C5 (amended): for parseable `published_at` the freshness check keeps the
article iff `now - published_at < window` STRICTLY — `window = 3600` seconds
— so equality at the boundary is rejected; a `published_at` in the future of
`now` (negative elapsed time) is kept. -/
theorem C5_freshness_strict (parse : String → Option Int) (now : Int)
    (articles : List Article) (a : Article) :
    (a ∈ filter_last_hour_articles parse now articles ↔
      a ∈ articles ∧
        ∃ dt, parsePublished parse a.published_at = some dt ∧ now - dt < 3600) ∧
    (∀ dt, parsePublished parse a.published_at = some dt → now ≤ dt →
      a ∈ articles → a ∈ filter_last_hour_articles parse now articles) := by
  have hmem : ∀ b, b ∈ filter_last_hour_articles parse now articles ↔
      b ∈ articles ∧ keepRecent parse now b = true := fun b => List.mem_filter
  have hkeep : ∀ dt, parsePublished parse a.published_at = some dt →
      (keepRecent parse now a = true ↔ now - dt < 3600) := by
    intro dt hp
    unfold keepRecent
    rw [hp]
    constructor
    · intro h
      have := of_decide_eq_true h
      omega
    · intro h
      exact decide_eq_true (by omega)
  constructor
  · rw [hmem]
    constructor
    · rintro ⟨hin, hk⟩
      refine ⟨hin, ?_⟩
      unfold keepRecent at hk
      cases hp : parsePublished parse a.published_at with
      | none => rw [hp] at hk; cases hk
      | some dt =>
        exact ⟨dt, rfl, (hkeep dt hp).mp (by unfold keepRecent; rw [hp]; rw [hp] at hk; exact hk)⟩
    · rintro ⟨hin, dt, hp, hlt⟩
      exact ⟨hin, (hkeep dt hp).mpr hlt⟩
  · intro dt hp hle hin
    rw [hmem]
    exact ⟨hin, (hkeep dt hp).mpr (by omega)⟩

/-- Witness for the amended C5: a future-dated article (published at second
7000, `now = 3600`) passes the freshness filter. -/
theorem C5_witness :
    parsePublished parseDigits artBull.published_at = some 7000 ∧
    artBull ∈ filter_last_hour_articles parseDigits 3600 [artBull] :=
  ⟨by decide,
   (C5_freshness_strict parseDigits 3600 [artBull] artBull).2 7000 (by decide)
     (by decide) (by simp)⟩

/-! ### Alert-loop lemmas (`telegram_alerts.py` `send_automatic_alerts`) -/

/-- Complete case analysis of one `send_automatic_alerts` loop iteration:
either the article is skipped and the state is unchanged, or every guard
passed, the notifier was invoked, and the state was updated according to
`successful_sends`. -/
theorem alertStep_cases (md5hex : String → String) (parse : String → Option Int)
    (bots : List BotConfig) (ok : Article → Nat → Bool) (now : Int)
    (st : AlertState) (a : Article) :
    alertStep md5hex parse bots ok now st a = st ∨
      (∃ dt, parsePublished parse a.published_at = some dt ∧ now - 3600 < dt ∧
        (["bullish", "bearish"].contains (pyLower a.sentiment)) = true ∧
        st.cache.contains (get_article_id md5hex a.title a.link) = false ∧
        ((0 < send_enhanced_telegram_alert_multi bots (ok a) ∧
            alertStep md5hex parse bots ok now st a =
              ⟨st.sent + 1, st.cache ++ [get_article_id md5hex a.title a.link],
                st.invoked ++ [a]⟩) ∨
          (send_enhanced_telegram_alert_multi bots (ok a) = 0 ∧
            alertStep md5hex parse bots ok now st a =
              { st with invoked := st.invoked ++ [a] }))) := by
  cases hp : parsePublished parse a.published_at with
  | none =>
    left
    simp only [alertStep, hp]
  | some dt =>
    by_cases h1 : dt ≤ now - 3600
    · left
      simp only [alertStep, hp, if_pos h1]
    · cases h2 : (["bullish", "bearish"].contains (pyLower a.sentiment)) with
      | false =>
        left
        have hc : (!(["bullish", "bearish"].contains (pyLower a.sentiment))) = true := by
          rw [h2]; rfl
        simp only [alertStep, hp, if_neg h1, if_pos hc]
      | true =>
        have hc : ¬((!(["bullish", "bearish"].contains (pyLower a.sentiment))) = true) := by
          rw [h2]; simp
        cases h3 : st.cache.contains (get_article_id md5hex a.title a.link) with
        | true =>
          left
          simp only [alertStep, hp, if_neg h1, if_neg hc, if_pos h3]
        | false =>
          have hc3 : ¬(st.cache.contains (get_article_id md5hex a.title a.link) = true) := by
            rw [h3]; simp
          refine Or.inr ⟨dt, rfl, by omega, rfl, rfl, ?_⟩
          rcases Nat.eq_zero_or_pos (send_enhanced_telegram_alert_multi bots (ok a)) with h4 | h4
          · have hc4 : ¬(send_enhanced_telegram_alert_multi bots (ok a) > 0) := by
              rw [h4]; exact Nat.lt_irrefl 0
            refine Or.inr ⟨h4, ?_⟩
            simp only [alertStep, hp, if_neg h1, if_neg hc, if_neg hc3, if_neg hc4]
          · refine Or.inl ⟨h4, ?_⟩
            simp only [alertStep, hp, if_neg h1, if_neg hc, if_neg hc3, if_pos h4]

theorem alertStep_cache_mono {md5hex : String → String} {parse : String → Option Int}
    {bots : List BotConfig} {ok : Article → Nat → Bool} {now : Int}
    {st : AlertState} {a : Article} {x : String} (h : x ∈ st.cache) :
    x ∈ (alertStep md5hex parse bots ok now st a).cache := by
  rcases alertStep_cases md5hex parse bots ok now st a with heq | ⟨dt, _, _, _, _, hcase⟩
  · rw [heq]; exact h
  · rcases hcase with ⟨_, heq⟩ | ⟨_, heq⟩
    · rw [heq]; exact List.mem_append_left _ h
    · rw [heq]; exact h

theorem foldl_cache_mono {md5hex : String → String} {parse : String → Option Int}
    {bots : List BotConfig} {ok : Article → Nat → Bool} {now : Int}
    {articles : List Article} {st : AlertState} {x : String} (h : x ∈ st.cache) :
    x ∈ (articles.foldl (alertStep md5hex parse bots ok now) st).cache := by
  induction articles generalizing st with
  | nil => exact h
  | cons b rest ih => exact ih (alertStep_cache_mono h)

/-- Every article in the `invoked` trace of an alert run passed all the
guards of the loop: its timestamp parsed and was strictly inside the window,
its lower-cased sentiment was bullish or bearish, and its id was not in the
cache the run started from. -/
theorem invoked_conditions {md5hex : String → String} {parse : String → Option Int}
    {bots : List BotConfig} {ok : Article → Nat → Bool} {now : Int}
    {articles : List Article} {st : AlertState} {a : Article}
    (h : a ∈ (articles.foldl (alertStep md5hex parse bots ok now) st).invoked) :
    a ∈ st.invoked ∨
      (∃ dt, parsePublished parse a.published_at = some dt ∧ now - 3600 < dt ∧
        (["bullish", "bearish"].contains (pyLower a.sentiment)) = true ∧
        get_article_id md5hex a.title a.link ∉ st.cache) := by
  induction articles generalizing st with
  | nil => exact Or.inl h
  | cons b rest ih =>
    rcases ih h with hin | ⟨dt, hp, hfresh, hsent, hid⟩
    · rcases alertStep_cases md5hex parse bots ok now st b with heq | ⟨dt, hp, hfresh, hsent, hnew, hcase⟩
      · rw [heq] at hin; exact Or.inl hin
      · have hinv : (alertStep md5hex parse bots ok now st b).invoked = st.invoked ++ [b] := by
          rcases hcase with ⟨_, heq⟩ | ⟨_, heq⟩ <;> rw [heq]
        rw [hinv] at hin
        rcases List.mem_append.mp hin with hin | hin
        · exact Or.inl hin
        · have hab : a = b := List.mem_singleton.mp hin
          subst hab
          refine Or.inr ⟨dt, hp, hfresh, hsent, fun hmem => ?_⟩
          have hnew' : List.elem (get_article_id md5hex a.title a.link) st.cache = false := hnew
          have hct := List.elem_iff.mpr hmem
          rw [hnew'] at hct
          exact absurd hct (by decide)
    · exact Or.inr ⟨dt, hp, hfresh, hsent, fun hmem => hid (alertStep_cache_mono hmem)⟩

/-- C8 fails as stated: the code never reports "unparsable" as a distinct
third outcome — the per-article keep decision is a plain boolean, and an
article with unparsable `published_at` receives the very same `false` that a
definitely-too-old article receives (silently coerced to exclusion). -/
theorem C8_counterexample :
    parsePublished parseDigits artUnparsable.published_at = none ∧
    keepRecent parseDigits 7200 artUnparsable = false ∧
    keepRecent parseDigits 7200 artOld = false ∧
    filter_last_hour_articles parseDigits 7200 [artUnparsable] = [] :=
  ⟨by decide, by decide, by decide, by decide⟩

/-- C8 (amended): an item whose `published_at` is missing or unparsable fails
closed — it is excluded from the freshness-filter output and the alert loop
never invokes the notifier for it — but the exclusion is a silent boolean
`false`, not a distinct "unparsable" outcome. -/
theorem C8_unparsable_fails_closed (parse : String → Option Int) (a : Article)
    (h : parsePublished parse a.published_at = none) :
    (∀ now, keepRecent parse now a = false) ∧
    (∀ now articles, a ∉ filter_last_hour_articles parse now articles) ∧
    (∀ (md5hex : String → String) (bots : List BotConfig)
        (ok : Article → Nat → Bool) (now : Int) (articles : List Article)
        (cache₀ : List String),
      a ∉ (send_automatic_alerts md5hex parse bots ok now articles cache₀).invoked) := by
  have hkeep : ∀ now, keepRecent parse now a = false := by
    intro now
    unfold keepRecent
    rw [h]
  refine ⟨hkeep, ?_, ?_⟩
  · intro now articles hmem
    have := (List.mem_filter.mp hmem).2
    rw [hkeep now] at this
    exact absurd this (by decide)
  · intro md5hex bots ok now articles cache₀ hmem
    rcases invoked_conditions hmem with hin | ⟨dt, hp, _⟩
    · cases hin
    · rw [h] at hp
      cases hp

/-- Witness for the amended C8 at a concrete unparsable article. -/
theorem C8_witness :
    parsePublished parseDigits artUnparsable.published_at = none ∧
    artUnparsable ∉ (send_automatic_alerts (fun s => s) parseDigits
      [⟨some "t", some "c"⟩] (fun _ _ => true) 7200 [artUnparsable] []).invoked :=
  ⟨by decide,
   (C8_unparsable_fails_closed parseDigits artUnparsable (by decide)).2.2
     (fun s => s) [⟨some "t", some "c"⟩] (fun _ _ => true) 7200 [artUnparsable] []⟩

/-- C1: whenever `send_automatic_alerts` invokes the notifier for an article
whose sentiment is one of the three enumeration values, that article is
Bullish or Bearish, its `published_at` parsed and lies within the one-hour
alert window relative to `now`, and its run-scoped id (hash of title+link)
was not already in the alerted-set the pass started from; articles failing
any conjunct are never passed to the notifier. -/
theorem C1_notifier_only_if_alert_worthy (md5hex : String → String)
    (parse : String → Option Int) (bots : List BotConfig)
    (ok : Article → Nat → Bool) (now : Int) (articles : List Article)
    (cache₀ : List String) (a : Article)
    (hsent : a.sentiment = "Bullish" ∨ a.sentiment = "Bearish" ∨ a.sentiment = "Neutral")
    (hmem : a ∈ (send_automatic_alerts md5hex parse bots ok now articles cache₀).invoked) :
    (a.sentiment = "Bullish" ∨ a.sentiment = "Bearish") ∧
    (∃ dt, parsePublished parse a.published_at = some dt ∧ now - dt ≤ 3600) ∧
    get_article_id md5hex a.title a.link ∉ cache₀ := by
  unfold send_automatic_alerts at hmem
  rcases invoked_conditions hmem with hin | ⟨dt, hp, hfresh, hsentl, hid⟩
  · cases hin
  · refine ⟨?_, ⟨dt, hp, by omega⟩, hid⟩
    rcases hsent with h | h | h
    · exact Or.inl h
    · exact Or.inr h
    · rw [h] at hsentl
      exact absurd hsentl (by decide)

/-- Witness for C1: a fresh Bullish article is invoked in a concrete run, and
the theorem yields its alert-worthiness conjuncts. -/
theorem C1_witness :
    artBull.sentiment = "Bullish" ∧
    artBull ∈ (send_automatic_alerts (fun s => s) parseDigits
      [⟨some "t", some "c"⟩] (fun _ _ => true) 7200 [artBull] []).invoked ∧
    get_article_id (fun s => s) artBull.title artBull.link ∉ ([] : List String) :=
  ⟨rfl, by decide,
   (C1_notifier_only_if_alert_worthy (fun s => s) parseDigits
     [⟨some "t", some "c"⟩] (fun _ _ => true) 7200 [artBull] [] artBull
     (Or.inl rfl) (by decide)).2.2⟩

/-- C6: once an article's identity is in the alerted-set after a pass, a
later pass started from that set never invokes the notifier for that article
again, whatever articles, bots, clock or send outcomes the later pass sees. -/
theorem C6_no_realert_across_passes (md5hex : String → String)
    (parse₁ parse₂ : String → Option Int) (bots₁ bots₂ : List BotConfig)
    (ok₁ ok₂ : Article → Nat → Bool) (now₁ now₂ : Int)
    (arts₁ arts₂ : List Article) (cache₀ : List String) (a : Article)
    (h : get_article_id md5hex a.title a.link ∈
      (send_automatic_alerts md5hex parse₁ bots₁ ok₁ now₁ arts₁ cache₀).cache) :
    a ∉ (send_automatic_alerts md5hex parse₂ bots₂ ok₂ now₂ arts₂
      (send_automatic_alerts md5hex parse₁ bots₁ ok₁ now₁ arts₁ cache₀).cache).invoked := by
  intro hmem
  rcases invoked_conditions hmem with hin | ⟨dt, _, _, _, hid⟩
  · cases hin
  · exact hid h

/-- Witness for C6: after a pass that alerts `artBull`, a second identical
pass does not invoke the notifier for it. -/
theorem C6_witness :
    get_article_id (fun s => s) artBull.title artBull.link ∈
      (send_automatic_alerts (fun s => s) parseDigits [⟨some "t", some "c"⟩]
        (fun _ _ => true) 7200 [artBull] []).cache ∧
    artBull ∉ (send_automatic_alerts (fun s => s) parseDigits [⟨some "t", some "c"⟩]
      (fun _ _ => true) 7200 [artBull]
      (send_automatic_alerts (fun s => s) parseDigits [⟨some "t", some "c"⟩]
        (fun _ _ => true) 7200 [artBull] []).cache).invoked :=
  ⟨by decide,
   C6_no_realert_across_passes (fun s => s) parseDigits parseDigits
     [⟨some "t", some "c"⟩] [⟨some "t", some "c"⟩] (fun _ _ => true) (fun _ _ => true)
     7200 7200 [artBull] [artBull] [] artBull (by decide)⟩

theorem countSends_pos_iff (ok : Nat → Bool) (i : Nat) (bots : List BotConfig) :
    0 < countSends ok i bots ↔
      ∃ j, ∃ hj : j < bots.length,
        pyFalsy (bots.get ⟨j, hj⟩).token = false ∧
        pyFalsy (bots.get ⟨j, hj⟩).chat_id = false ∧ ok (i + j) = true := by
  induction bots generalizing i with
  | nil => simp [countSends]
  | cons b rest ih =>
    rw [countSends]
    cases hb : (!pyFalsy b.token && !pyFalsy b.chat_id && ok i) with
    | true =>
      simp only [if_pos rfl]
      simp only [Bool.and_eq_true, Bool.not_eq_true'] at hb
      obtain ⟨⟨ht, hc⟩, hok⟩ := hb
      constructor
      · intro _
        exact ⟨0, Nat.succ_pos rest.length, ht, hc,
          by rw [Nat.add_zero]; exact hok⟩
      · intro _
        simp
    | false =>
      simp only [if_neg (show ¬(false = true) from by decide), Nat.zero_add]
      rw [ih (i + 1)]
      constructor
      · rintro ⟨j, hj, ht, hc, hok⟩
        refine ⟨j + 1, Nat.succ_lt_succ hj, ht, hc, ?_⟩
        have harith : i + (j + 1) = i + 1 + j := by omega
        rw [harith]
        exact hok
      · rintro ⟨j, hj, ht, hc, hok⟩
        cases j with
        | zero =>
          exfalso
          have hb' : (!pyFalsy b.token && !pyFalsy b.chat_id && ok i) = true := by
            simp only [Bool.and_eq_true, Bool.not_eq_true']
            exact ⟨⟨ht, hc⟩, by rw [← Nat.add_zero i]; exact hok⟩
          rw [hb] at hb'
          exact absurd hb' (by decide)
        | succ j =>
          refine ⟨j, Nat.lt_of_succ_lt_succ hj, ht, hc, ?_⟩
          have harith : i + 1 + j = i + (j + 1) := by omega
          rw [harith]
          exact hok

/-- Value of one alert-loop iteration when every guard passes: the notifier
is invoked and the state update depends only on `successful_sends`. -/
theorem alertStep_guards_pass (md5hex : String → String)
    (parse : String → Option Int) (bots : List BotConfig)
    (ok : Article → Nat → Bool) (now : Int) (st : AlertState) (a : Article)
    (dt : Int) (hp : parsePublished parse a.published_at = some dt)
    (hfresh : now - 3600 < dt)
    (hsent : (["bullish", "bearish"].contains (pyLower a.sentiment)) = true)
    (hnew : st.cache.contains (get_article_id md5hex a.title a.link) = false) :
    alertStep md5hex parse bots ok now st a =
      if 0 < send_enhanced_telegram_alert_multi bots (ok a) then
        ⟨st.sent + 1, st.cache ++ [get_article_id md5hex a.title a.link],
          st.invoked ++ [a]⟩
      else ⟨st.sent, st.cache, st.invoked ++ [a]⟩ := by
  have h1 : ¬(dt ≤ now - 3600) := by omega
  have hc : ¬((!(["bullish", "bearish"].contains (pyLower a.sentiment))) = true) := by
    rw [hsent]; simp
  have hc3 : ¬(st.cache.contains (get_article_id md5hex a.title a.link) = true) := by
    rw [hnew]; simp
  simp only [alertStep, hp, if_neg h1, if_neg hc, if_neg hc3]

/-- C2: under the alert-worthiness guards, the article id is added to the
alerted-set and the sent counter incremented iff at least one endpoint
confirms success (`successful_sends > 0`); when every endpoint fails, cache
and counter are unchanged, leaving the article eligible for a later pass;
and `successful_sends > 0` holds iff some configured bot has non-falsy
credentials and its send succeeds. -/
theorem C2_mark_alerted_iff_endpoint_success (md5hex : String → String)
    (parse : String → Option Int) (bots : List BotConfig)
    (ok : Article → Nat → Bool) (now : Int) (st : AlertState) (a : Article)
    (dt : Int) (hp : parsePublished parse a.published_at = some dt)
    (hfresh : now - 3600 < dt)
    (hsent : (["bullish", "bearish"].contains (pyLower a.sentiment)) = true)
    (hnew : st.cache.contains (get_article_id md5hex a.title a.link) = false) :
    ((get_article_id md5hex a.title a.link ∈
        (alertStep md5hex parse bots ok now st a).cache ∧
      (alertStep md5hex parse bots ok now st a).sent = st.sent + 1) ↔
      0 < send_enhanced_telegram_alert_multi bots (ok a)) ∧
    (send_enhanced_telegram_alert_multi bots (ok a) = 0 →
      (alertStep md5hex parse bots ok now st a).cache = st.cache ∧
      (alertStep md5hex parse bots ok now st a).sent = st.sent) ∧
    (0 < send_enhanced_telegram_alert_multi bots (ok a) ↔
      ∃ j, ∃ hj : j < bots.length,
        pyFalsy (bots.get ⟨j, hj⟩).token = false ∧
        pyFalsy (bots.get ⟨j, hj⟩).chat_id = false ∧ ok a j = true) := by
  have hstep := alertStep_guards_pass md5hex parse bots ok now st a dt hp hfresh hsent hnew
  refine ⟨?_, ?_, ?_⟩
  · constructor
    · rintro ⟨hmem, hsent'⟩
      by_contra hn
      rw [if_neg hn] at hstep
      rw [hstep] at hsent'
      simp at hsent'
    · intro hpos
      rw [if_pos hpos] at hstep
      rw [hstep]
      exact ⟨List.mem_append_right _ (List.mem_singleton.mpr rfl), rfl⟩
  · intro h0
    rw [if_neg (by omega)] at hstep
    rw [hstep]
    exact ⟨rfl, rfl⟩
  · rw [send_enhanced_telegram_alert_multi, countSends_pos_iff]
    constructor
    · rintro ⟨j, hj, ht, hc, hok⟩
      refine ⟨j, hj, ht, hc, ?_⟩
      rw [← Nat.zero_add j]
      exact hok
    · rintro ⟨j, hj, ht, hc, hok⟩
      refine ⟨j, hj, ht, hc, ?_⟩
      rw [Nat.zero_add]
      exact hok

/-- Witness for C2: in a run with one correctly configured bot whose send
succeeds, the concrete alert-worthy article is marked in the alerted-set. -/
theorem C2_witness :
    parsePublished parseDigits artBull.published_at = some 7000 ∧
    (get_article_id (fun s => s) artBull.title artBull.link ∈
        (alertStep (fun s => s) parseDigits [⟨some "t", some "c"⟩]
          (fun _ _ => true) 7200 ⟨0, [], []⟩ artBull).cache ∧
      (alertStep (fun s => s) parseDigits [⟨some "t", some "c"⟩]
          (fun _ _ => true) 7200 ⟨0, [], []⟩ artBull).sent = 0 + 1) :=
  ⟨by decide,
   (C2_mark_alerted_iff_endpoint_success (fun s => s) parseDigits
       [⟨some "t", some "c"⟩] (fun _ _ => true) 7200 ⟨0, [], []⟩ artBull 7000
       (by decide) (by decide) (by decide) (by decide)).1.mpr (by decide)⟩

/-- C3 fails as stated: with Gemini configured but the enrichment call
raising (e.g. a timeout), the article titled "rise" is assigned sentiment
"Bullish" by the keyword fallback — not the claimed Neutral with a generic
summary. -/
theorem C3_counterexample :
    analyze_article_live true (Except.error ()) "rise" "" =
      ("Market indicators suggest positive outlook for crude oil. Key factors driving bullish sentiment identified.",
        "Bullish") ∧
    ("Bullish" : String) ≠ "Neutral" :=
  ⟨by decide, by decide⟩

/-- C3 (amended): an enrichment failure is never propagated — the analyzer
returns the keyword fallback's result instead of raising — but that fallback
performs keyword counting: the sentiment is always one of Bullish, Bearish
or Neutral, and the claimed "Neutral plus generic fallback summary" is what
the item receives exactly when neither keyword class strictly dominates, in
particular whenever no sentiment keyword occurs at all. -/
theorem C3_enrichment_failure_falls_back (title description : String) (e : Unit) :
    analyze_article_live true (Except.error e) title description =
      analyze_article_fallback title description ∧
    ((analyze_article_fallback title description).2 = "Bullish" ∨
      (analyze_article_fallback title description).2 = "Bearish" ∨
      (analyze_article_fallback title description).2 = "Neutral") ∧
    ((bullish_keywords.filter (fun word =>
        strContains (pyLower (title ++ " " ++ description)) word)).length = 0 →
      (bearish_keywords.filter (fun word =>
        strContains (pyLower (title ++ " " ++ description)) word)).length = 0 →
      analyze_article_fallback title description =
        ("Market sentiment remains neutral with mixed signals. No clear directional bias identified.",
          "Neutral")) := by
  refine ⟨rfl, ?_, ?_⟩
  · unfold analyze_article_fallback
    dsimp only
    split_ifs <;> simp
  · intro h1 h2
    unfold analyze_article_fallback
    dsimp only
    rw [h1, h2]
    simp

/-- Witness for the amended C3: on empty title and description no sentiment
keyword occurs, so the failed enrichment yields Neutral with the generic
fallback summary. -/
theorem C3_witness :
    analyze_article_live true (Except.error ()) "" "" =
      analyze_article_fallback "" "" ∧
    analyze_article_fallback "" "" =
      ("Market sentiment remains neutral with mixed signals. No clear directional bias identified.",
        "Neutral") :=
  ⟨(C3_enrichment_failure_falls_back "" "" ()).1,
   (C3_enrichment_failure_falls_back "" "" ()).2.2 (by decide) (by decide)⟩

/-! ### Persistence lemmas (`database.py`) -/

theorem setDoc_any_key (st : Store) (docId : String) (d : StoredArticle) :
    (setDoc st docId d).any (fun p => p.1 == docId) = true := by
  unfold setDoc
  by_cases h : st.any (fun p => p.1 == docId) = true
  · rw [if_pos h]
    obtain ⟨p, hp, hpk⟩ := List.any_eq_true.mp h
    apply List.any_eq_true.mpr
    refine ⟨(docId, d), ?_, by simp⟩
    apply List.mem_map.mpr
    exact ⟨p, hp, by rw [if_pos hpk]⟩
  · rw [if_neg h]
    apply List.any_eq_true.mpr
    exact ⟨(docId, d), List.mem_append_right _ (List.mem_singleton.mpr rfl), by simp⟩

theorem setDoc_keys_nodup {st : Store} {docId : String} {d : StoredArticle}
    (h : (st.map Prod.fst).Nodup) : ((setDoc st docId d).map Prod.fst).Nodup := by
  unfold setDoc
  by_cases hx : st.any (fun p => p.1 == docId) = true
  · rw [if_pos hx]
    have hkeys : (st.map (fun p => if p.1 == docId then (docId, d) else p)).map Prod.fst =
        st.map Prod.fst := by
      rw [List.map_map]
      apply List.map_congr_left
      intro p _
      by_cases hpk : (p.1 == docId) = true
      · simp only [Function.comp_apply, if_pos hpk]
        exact (eq_of_beq hpk).symm
      · simp only [Function.comp_apply, if_neg hpk]
    rw [hkeys]
    exact h
  · rw [if_neg hx]
    rw [List.map_append]
    simp only [List.map_cons, List.map_nil]
    rw [List.nodup_append]
    refine ⟨h, List.nodup_singleton _, fun x hx1 hx2 => ?_⟩
    rw [List.mem_singleton] at hx2
    subst hx2
    obtain ⟨p, hp, hpk⟩ := List.mem_map.mp hx1
    exact hx (List.any_eq_true.mpr ⟨p, hp, by rw [hpk]; simp⟩)

/-- C9: with the Firestore transport up, `insert_article` reports success and
keys the document by the MD5 of the link alone, so a subsequent
`check_article_exists` on the same link finds it; the upsert keeps document
ids unique, hence a given link maps to at most one stored document. -/
theorem C9_insert_then_exists (md5hex : String → String) (st : Store)
    (title description source link published_at : String)
    (summary sentiment : Option String) (nowIso : String)
    (hnd : (st.map Prod.fst).Nodup) :
    (insert_article md5hex true st title description source link published_at
        summary sentiment nowIso).2 = true ∧
    check_article_exists md5hex true
      (insert_article md5hex true st title description source link published_at
        summary sentiment nowIso).1 link = true ∧
    (((insert_article md5hex true st title description source link published_at
        summary sentiment nowIso).1.map Prod.fst).Nodup) ∧
    ((insert_article md5hex true st title description source link published_at
        summary sentiment nowIso).1.map Prod.fst).count (md5hex link) ≤ 1 := by
  have hins : (insert_article md5hex true st title description source link published_at
      summary sentiment nowIso).1 =
      setDoc st (md5hex link)
        { title := title, description := description, source := source, link := link,
          published_at := published_at, summary := summary, sentiment := sentiment,
          alerted := false, created_at := nowIso } := rfl
  have hnd' : (((insert_article md5hex true st title description source link published_at
      summary sentiment nowIso).1).map Prod.fst).Nodup := by
    rw [hins]
    exact setDoc_keys_nodup hnd
  refine ⟨rfl, ?_, hnd', ?_⟩
  · unfold check_article_exists
    rw [hins]
    rw [Bool.true_and]
    exact setDoc_any_key st (md5hex link) _
  · exact List.nodup_iff_count_le_one.mp hnd' (md5hex link)

/-- Witness for C9 on the empty store. -/
theorem C9_witness :
    ((([] : Store).map Prod.fst).Nodup) ∧
    (insert_article (fun s => s) true [] "t" "d" "src" "https://x/9" "0"
      none none "c").2 = true ∧
    check_article_exists (fun s => s) true
      (insert_article (fun s => s) true [] "t" "d" "src" "https://x/9" "0"
        none none "c").1 "https://x/9" = true :=
  ⟨by simp,
   (C9_insert_then_exists (fun s => s) [] "t" "d" "src" "https://x/9" "0"
     none none "c" (by simp)).1,
   (C9_insert_then_exists (fun s => s) [] "t" "d" "src" "https://x/9" "0"
     none none "c" (by simp)).2.1⟩

/-- C10 fails as stated: `get_unalerted_articles` goes through
`get_recent_articles(1000)`, which truncates the collection at 1000
documents; in a 1001-document store the last document is unalerted with
unset sentiment yet is not returned, so the result is not exactly the stored
articles satisfying the predicate. -/
theorem C10_counterexample :
    sartUnset ∈ bigStore.map Prod.snd ∧
    sartUnset.alerted = false ∧
    sartUnset.sentiment ≠ some "Neutral" ∧
    sartUnset ∉ get_unalerted_articles true bigStore := by
  have hmap : bigStore.map Prod.snd =
      List.replicate 1000 sartNeutral ++ [sartUnset] := by
    unfold bigStore
    rw [List.map_append, List.map_replicate]
    rfl
  refine ⟨?_, rfl, by decide, ?_⟩
  · rw [hmap]
    exact List.mem_append_right _ (List.mem_singleton.mpr rfl)
  · intro hmem
    unfold get_unalerted_articles get_recent_articles at hmem
    rw [if_pos rfl] at hmem
    rw [hmap] at hmem
    have htake : (List.replicate 1000 sartNeutral ++ [sartUnset]).take 1000 =
        List.replicate 1000 sartNeutral := by
      exact List.take_left' (List.length_replicate 1000 sartNeutral)
    rw [htake] at hmem
    have := (List.mem_filter.mp hmem).1
    have heq := List.eq_of_mem_replicate this
    exact absurd heq (by decide)

/-- C10 (amended): `get_unalerted_articles` returns exactly those among the
first 1000 stored documents (the page fetched by `get_recent_articles`)
whose `alerted` field is falsy and whose sentiment is not the string
"Neutral"; an article with unset sentiment is therefore an alert candidate
while a Neutral-labelled one is excluded. -/
theorem C10_unalerted_query (st : Store) (a : StoredArticle) :
    (a ∈ get_unalerted_articles true st ↔
      a ∈ (st.map Prod.snd).take 1000 ∧ a.alerted = false ∧
        a.sentiment ≠ some "Neutral") ∧
    (a ∈ (st.map Prod.snd).take 1000 → a.alerted = false → a.sentiment = none →
      a ∈ get_unalerted_articles true st) ∧
    (a.sentiment = some "Neutral" → a ∉ get_unalerted_articles true st) := by
  have hiff : a ∈ get_unalerted_articles true st ↔
      a ∈ (st.map Prod.snd).take 1000 ∧ a.alerted = false ∧
        a.sentiment ≠ some "Neutral" := by
    unfold get_unalerted_articles get_recent_articles
    rw [if_pos rfl]
    rw [List.mem_filter]
    apply and_congr_right
    intro _
    rw [Bool.and_eq_true, Bool.not_eq_true', bne_iff_ne]
  refine ⟨hiff, ?_, ?_⟩
  · intro hin hal hs
    exact hiff.mpr ⟨hin, hal, by rw [hs]; exact fun h => Option.noConfusion h⟩
  · intro hs hmem
    exact absurd hs (fun hs' => ((hiff.mp hmem).2.2 (by rw [hs'])).elim)

/-- Witness for the amended C10: a one-document store whose document is
unalerted with unset sentiment is returned by the query. -/
theorem C10_witness :
    sartUnset ∈ (([("x", sartUnset)] : Store).map Prod.snd).take 1000 ∧
    sartUnset ∈ get_unalerted_articles true [("x", sartUnset)] :=
  ⟨by decide,
   (C10_unalerted_query [("x", sartUnset)] sartUnset).2.1 (by decide) rfl rfl⟩

end CrudeIntel
